import Mathlib

/-!
Shallow embedding of the `langrust` client library, the part reachable from
the frozen claims: the conversation data model and fluent request builder
(`src/client/mod.rs`), the Gemini request compiler, non-streaming response
decoder and streaming SSE reassembler (`src/gemini/base.rs`), and the wire
types (`src/gemini/types.rs`).

Conventions of the embedding:
* Rust `i16`/`i32` are modelled as `Int` (no arithmetic in the claims
  overflows);
* Rust `Option<T>` is `Option T`; Rust `Result<T, E>` with string-like
  errors is `Except String T`;
* Rust `HashMap<String, Value>` is modelled as an association list
  `List (String × JsonValue)`;
* byte buffers are modelled as `List Char` (the code immediately decodes
  buffers with `String::from_utf8_lossy`; chunk arrivals are assumed to
  split at character boundaries, byte-level UTF-8 boundary effects are out
  of scope);
* the JSON payload parser (`serde_json::from_str`, an external library)
  and the JSON-schema derivation (`schemars::schema_for!`) are opaque
  collaborators: functions over them are parameterised by the parse
  function / the derived schema.
-/

namespace Langrust

/-- Minimal JSON value type standing for `serde_json::Value`. -/
inductive JsonValue where
  | null
  | boolean (b : Bool)
  | number (n : Int)
  | str (s : String)
  | array (elems : List JsonValue)
  | object (fields : List (String × JsonValue))

/-- Rust `client::Role` (src/client/mod.rs). -/
inductive Role where
  | model
  | user
deriving DecidableEq, Repr

/-- Rust `client::Message` (src/client/mod.rs): `content: String`,
`role: Option<Role>`. -/
structure Message where
  content : String
  role : Option Role
deriving DecidableEq, Repr

/-- Rust `client::Settings` (src/client/mod.rs): four independently
optional `i16` fields. -/
structure Settings where
  max_tokens : Option Int
  timeout : Option Int
  temperature : Option Int
  thinking_budget : Option Int

/-- Rust `client::ToolParameters` (src/client/mod.rs); `properties`
is a `HashMap<String, Value>`, modelled as an association list. -/
structure ToolParameters where
  param_type : String
  properties : List (String × JsonValue)
  required : List String

/-- Rust `client::Tool` (src/client/mod.rs). -/
structure Tool where
  name : String
  description : String
  parameters : Option ToolParameters

/-- Rust `client::FunctionCall` (src/client/mod.rs). -/
structure FunctionCall where
  name : String
  args : List (String × JsonValue)

/-- Rust `client::Completion` (src/client/mod.rs). -/
structure Completion where
  completion : String
  prompt_tokens : Int
  completion_tokens : Int
  total_tokens : Int
  function : Option FunctionCall

/-- Rust `client::StreamEvent` (src/client/mod.rs). -/
inductive StreamEvent where
  | delta (text : String)
  | usage (prompt_tokens completion_tokens total_tokens : Int)
  | functionCall (fc : FunctionCall)
  | error (message : String)

/-- Rust `client::ModelRequest` (src/client/mod.rs). -/
structure ModelRequest where
  system : Option String
  messages : Option (List Message)
  settings : Option Settings
  tools : Option (List Tool)

/-- Rust `client::ModelRequestBuilder` (src/client/mod.rs). The `model`
field is an opaque borrowed handle (`&dyn Model`) used only by the
terminal operations, so it is omitted from the data model. -/
structure ModelRequestBuilder where
  system : Option String
  messages : Option (List Message)
  settings : Option Settings
  tools : Option (List Tool)

/-- Rust `ModelRequestBuilder::new` (src/client/mod.rs, lines 199-207). -/
def ModelRequestBuilder.new : ModelRequestBuilder :=
  { system := none, messages := none, settings := none, tools := none }

/-- Rust `ModelRequestBuilder::with_system` (src/client/mod.rs,
lines 209-212). -/
def ModelRequestBuilder.with_system (b : ModelRequestBuilder) (system : String) :
    ModelRequestBuilder :=
  { b with system := some system }

/-- Rust `ModelRequestBuilder::with_message` (src/client/mod.rs,
lines 214-220): initialize a singleton list when absent, push in place
otherwise. -/
def ModelRequestBuilder.with_message (b : ModelRequestBuilder) (message : Message) :
    ModelRequestBuilder :=
  match b.messages with
  | none => { b with messages := some [message] }
  | some ms => { b with messages := some (ms ++ [message]) }

/-- Rust `ModelRequestBuilder::with_messages` (src/client/mod.rs,
lines 222-228): initialize when absent, extend in place otherwise. -/
def ModelRequestBuilder.with_messages (b : ModelRequestBuilder) (messages : List Message) :
    ModelRequestBuilder :=
  match b.messages with
  | none => { b with messages := some messages }
  | some ms => { b with messages := some (ms ++ messages) }

/-- Rust `ModelRequestBuilder::with_settings` (src/client/mod.rs,
lines 230-233). -/
def ModelRequestBuilder.with_settings (b : ModelRequestBuilder) (settings : Settings) :
    ModelRequestBuilder :=
  { b with settings := some settings }

/-- Rust `ModelRequestBuilder::with_tool` (src/client/mod.rs, lines
235-243). In the populated branch the source runs
`self.tools.clone().map(|mut ts| ts.push(tool));`: it pushes into a
*clone* of the list and drops the clone, so the builder's own `tools`
field is left unchanged. The embedding reproduces that net effect; the
discarded clone is kept as a dead let-binding to mirror the source. -/
def ModelRequestBuilder.with_tool (b : ModelRequestBuilder) (tool : Tool) :
    ModelRequestBuilder :=
  match b.tools with
  | none => { b with tools := some [tool] }
  | some ts =>
    let _droppedClone := ts ++ [tool]
    b

/-- Rust `ModelRequestBuilder::with_tools` (src/client/mod.rs, lines
245-253). Same clone-and-drop shape as `with_tool` in the populated
branch. -/
def ModelRequestBuilder.with_tools (b : ModelRequestBuilder) (tools : List Tool) :
    ModelRequestBuilder :=
  match b.tools with
  | none => { b with tools := some tools }
  | some ts =>
    let _droppedClone := ts ++ tools
    b

/-- Rust `ModelRequestBuilder::to_model_request` (src/client/mod.rs,
lines 263-270). -/
def ModelRequestBuilder.to_model_request (b : ModelRequestBuilder) : ModelRequest :=
  { system := b.system, messages := b.messages, settings := b.settings, tools := b.tools }

/-- Rust `Tool::with_parameter` (src/client/mod.rs, lines 164-176). The
schema derivation `schema_for!(T)` followed by the two serde conversions
is an opaque external step; its outcome is passed in as `derived`. The
source propagates a derivation error first (`?`), then matches on
`self.parameters`: `None` installs the derived parameters, `Some(_)`
returns `self` unchanged. -/
def Tool.with_parameter (self : Tool) (derived : Except String ToolParameters) :
    Except String Tool :=
  match derived with
  | Except.error e => Except.error e
  | Except.ok parameters =>
    match self.parameters with
    | none =>
      Except.ok { name := self.name, description := self.description,
                  parameters := some parameters }
    | some _ => Except.ok self

/-! Gemini wire types (src/gemini/types.rs). -/

/-- Rust `gemini::types::ThinkingConfig` (src/gemini/types.rs). -/
structure ThinkingConfig where
  thinking_budget : Int

/-- Rust `gemini::types::GenerationConfig` as constructed by
`create_request_body` (src/gemini/base.rs, lines 29-37):
`max_output_tokens` is filled with `settings.and_then(|s| s.max_tokens)`,
so it is optional here. -/
structure GenerationConfig where
  max_output_tokens : Option Int
  temperature : Int
  thinking_config : Option ThinkingConfig

/-- Rust request-side `gemini::types::Part` as constructed by
`create_request_body` (src/gemini/base.rs, lines 45-47): one text field. -/
structure Part where
  text : String

/-- Rust `gemini::types::Content` (src/gemini/types.rs). -/
structure Content where
  parts : List Part
  role : Role

/-- Rust `gemini::types::SystemInstructionContent` (src/gemini/types.rs). -/
structure SystemInstructionContent where
  parts : List Part

/-- Modelled from the spec: the `GeminiTool` declaration referenced by
`create_request_body` (src/gemini/base.rs, line 65) is not defined under
src/; per the spec the wire tools array is "mapped 1:1 from tool
declarations" (name, description, optional parameter schema). -/
structure GeminiTool where
  name : String
  description : String
  parameters : Option ToolParameters

/-- Modelled from the spec: `GeminiTool::from_tool` (called at
src/gemini/base.rs, line 65, not defined under src/) — the 1:1 mapping
from a caller tool declaration to a wire function declaration. -/
def GeminiTool.from_tool (t : Tool) : GeminiTool :=
  { name := t.name, description := t.description, parameters := t.parameters }

/-- Rust `gemini::types::GeminiTools` wrapper holding the
`function_declarations` array (src/gemini/base.rs, lines 61-67). -/
structure GeminiTools where
  function_declarations : List GeminiTool

/-- Rust `gemini::types::Request` / `GeminiRequest` (src/gemini/types.rs,
with the `tools` field as populated in src/gemini/base.rs, lines 60-68). -/
structure GeminiRequest where
  system_instruction : Option SystemInstructionContent
  contents : List Content
  generation_config : GenerationConfig
  tools : Option (List GeminiTools)

/-- Rust `gemini::types::FunctionCall` (src/gemini/types.rs, response
side): `id`, `name`, `args`. -/
structure GeminiFunctionCall where
  id : String
  name : String
  args : List (String × JsonValue)

/-- Rust `gemini::types::ResponsePart` (src/gemini/types.rs): a required
`text` field. The `function_call` field is Modelled from the spec: the
response parts must carry the optional function call that the (missing
from src/) `GeminiResponse::get_function` scans for — per the spec each
candidate holds "ordered parts (text and/or function-call)". -/
structure ResponsePart where
  text : String
  function_call : Option GeminiFunctionCall

/-- Rust `gemini::types::ResponseContent` (src/gemini/types.rs). -/
structure ResponseContent where
  parts : List ResponsePart
  role : Option String

/-- Rust `gemini::types::Candidate` (src/gemini/types.rs). -/
structure Candidate where
  content : ResponseContent
  finish_reason : Option String
  index : Option Int

/-- Rust `gemini::types::UsageMetadata` (src/gemini/types.rs): three
independently optional token counts. -/
structure UsageMetadata where
  prompt_token_count : Option Int
  candidates_token_count : Option Int
  total_token_count : Option Int

/-- Rust `gemini::types::GeminiResponse` (src/gemini/types.rs). -/
structure GeminiResponse where
  candidates : List Candidate
  usage_metadata : Option UsageMetadata

/-- Rust `GeminiResponse::get_text` (src/gemini/types.rs, lines 131-144):
`None` when the candidate list is empty, otherwise the in-order
concatenation (`push_str` loop) of the first candidate's part texts. -/
def GeminiResponse.get_text (r : GeminiResponse) : Option String :=
  match r.candidates with
  | [] => none
  | candidate :: _ =>
    some (candidate.content.parts.foldl (fun acc p => acc ++ p.text) "")

/-- Modelled from the spec: `GeminiResponse::get_function` (called at
src/gemini/base.rs, lines 126 and 198, not defined under src/) — scan the
first candidate's parts; "the last part in the candidate carrying a
function call wins" (last-write wins). -/
def GeminiResponse.get_function (r : GeminiResponse) : Option GeminiFunctionCall :=
  match r.candidates with
  | [] => none
  | candidate :: _ =>
    candidate.content.parts.foldl
      (fun acc p =>
        match p.function_call with
        | some fc => some fc
        | none => acc)
      none

/-- Modelled from the spec: `GeminiResponse::get_prompt_tokens` (called at
src/gemini/base.rs, line 106, not defined under src/) — "token counts are
read from a separate usage block", each count independently required. -/
def GeminiResponse.get_prompt_tokens (r : GeminiResponse) : Option Int :=
  r.usage_metadata.bind (fun u => u.prompt_token_count)

/-- Modelled from the spec: `GeminiResponse::get_completion_tokens`
(called at src/gemini/base.rs, line 111, not defined under src/). -/
def GeminiResponse.get_completion_tokens (r : GeminiResponse) : Option Int :=
  r.usage_metadata.bind (fun u => u.candidates_token_count)

/-- Modelled from the spec: `GeminiResponse::get_total_tokens` (called at
src/gemini/base.rs, line 116, not defined under src/). -/
def GeminiResponse.get_total_tokens (r : GeminiResponse) : Option Int :=
  r.usage_metadata.bind (fun u => u.total_token_count)

/-! Request compiler (src/gemini/base.rs, `create_request_body`). -/

/-- Whether `sub` occurs at the start of `l` (helper for `strContains`). -/
def isSeqStart : List Char → List Char → Bool
  | [], _ => true
  | _ :: _, [] => false
  | p :: ps, c :: cs => p = c && isSeqStart ps cs

/-- Whether `sub` occurs contiguously anywhere in `l` (helper for
`strContains`). -/
def listContainsSeq (sub : List Char) : List Char → Bool
  | [] => isSeqStart sub []
  | c :: rest => isSeqStart sub (c :: rest) || listContainsSeq sub rest

/-- Rust `str::contains(pat)` with a literal pattern: substring
occurrence. -/
def strContains (s pat : String) : Bool :=
  listContainsSeq pat.data s.data

/-- Rust `GeminiClient::create_request_body` (src/gemini/base.rs, lines
16-71), with the trait's `self.model()` passed explicitly. The thinking
configuration is included exactly when the model identifier contains
neither "1.5" nor "2.0"; `unwrap_or_default()` on `i16` is `getD 0`. -/
def create_request_body (model : String) (request : ModelRequest) : GeminiRequest :=
  let thinking_config : Option ThinkingConfig :=
    if !(strContains model "1.5") && !(strContains model "2.0") then
      some { thinking_budget :=
               (request.settings.map (fun s => s.thinking_budget.getD 0)).getD 0 }
    else
      none
  let generation_config : GenerationConfig :=
    { max_output_tokens := request.settings.bind (fun s => s.max_tokens)
      temperature := (request.settings.map (fun s => s.temperature.getD 0)).getD 0
      thinking_config := thinking_config }
  let contents : List Content :=
    (request.messages.getD []).map (fun message =>
      { parts := [{ text := message.content }]
        role := message.role.getD Role.user })
  let system_instruction : Option SystemInstructionContent :=
    request.system.map (fun m => { parts := [{ text := m }] })
  { system_instruction := system_instruction
    contents := contents
    generation_config := generation_config
    tools := request.tools.map (fun ts =>
      [{ function_declarations := ts.map GeminiTool.from_tool }]) }

/-! Non-streaming response decoder: the field-presence checks of
`GeminiClient::generate_content` after the HTTP layer has produced a
parsed `GeminiResponse` (src/gemini/base.rs, lines 95-131). -/

/-- Rust `GeminiClient::generate_content`, decode portion
(src/gemini/base.rs, lines 97-131): the chain of `ok_or_else` checks on
`get_text`, `get_prompt_tokens`, `get_completion_tokens`,
`get_total_tokens`, then the `Completion` construction. -/
def decodeCompletion (r : GeminiResponse) : Except String Completion :=
  match r.get_text with
  | none => Except.error "Missing completion from response"
  | some content =>
    match r.get_prompt_tokens with
    | none => Except.error "Missing prompt tokens from response"
    | some prompt_tokens =>
      match r.get_completion_tokens with
      | none => Except.error "Missing completion tokens from response"
      | some completion_tokens =>
        match r.get_total_tokens with
        | none => Except.error "Missing total tokens from response"
        | some total_tokens =>
          Except.ok
            { completion := content
              prompt_tokens := prompt_tokens
              completion_tokens := completion_tokens
              total_tokens := total_tokens
              function := r.get_function.map (fun gf =>
                { name := gf.name, args := gf.args }) }

/-! Streaming reassembler and event decoder
(`GeminiClient::stream_generate_content`, src/gemini/base.rs, lines
158-262). The buffer is a `List Char`; the transport byte source is a
list of arrivals, each either a chunk (`Except.ok`) or a transport error
(`Except.error`); exhaustion of the list is the `Ok(None)` end of the
Rust byte stream. -/

/-- Rust `buf_str.find("\n\n")` followed by the split at lines 169-172 of
src/gemini/base.rs: locate the first occurrence of the double-newline
frame delimiter and return (text before it, text after it). -/
def findDelim : List Char → Option (List Char × List Char)
  | [] => none
  | c :: rest =>
    if c = '\n' ∧ rest.head? = some '\n' then
      some ([], rest.tail)
    else
      match findDelim rest with
      | some (frame, remaining) => some (c :: frame, remaining)
      | none => none

/-- When a frame is split off, the retained remainder is strictly shorter
than the buffer (the two delimiter characters are consumed). -/
lemma findDelim_length :
    ∀ {l frame remaining : List Char},
      findDelim l = some (frame, remaining) → remaining.length < l.length := by
  intro l
  induction l with
  | nil => intro f r h; simp [findDelim] at h
  | cons c t ih =>
    intro f r h
    rw [findDelim] at h
    split at h
    · rename_i hcond
      simp only [Option.some.injEq, Prod.mk.injEq] at h
      obtain ⟨h1, h2⟩ := h
      subst h2
      rcases t with _ | ⟨c2, t2⟩
      · simp at hcond
      · simp only [List.tail_cons, List.length_cons]
        omega
    · split at h
      · rename_i frame0 remaining0 hfd
        simp only [Option.some.injEq, Prod.mk.injEq] at h
        obtain ⟨h1, h2⟩ := h
        subst h2
        have := ih hfd
        simp only [List.length_cons]
        omega
      · simp at h

/-- Also: the frame, the delimiter and the remainder partition the
buffer. -/
lemma findDelim_append :
    ∀ {l frame remaining : List Char},
      findDelim l = some (frame, remaining) →
      l = frame ++ '\n' :: '\n' :: remaining := by
  intro l
  induction l with
  | nil => intro f r h; simp [findDelim] at h
  | cons c t ih =>
    intro f r h
    rw [findDelim] at h
    split at h
    · rename_i hcond
      simp only [Option.some.injEq, Prod.mk.injEq] at h
      obtain ⟨h1, h2⟩ := h
      subst h1; subst h2
      rcases t with _ | ⟨c2, t2⟩
      · simp at hcond
      · obtain ⟨hc, hh⟩ := hcond
        simp only [List.head?_cons, Option.some.injEq] at hh
        simp [hc, hh]
    · split at h
      · rename_i frame0 remaining0 hfd
        simp only [Option.some.injEq, Prod.mk.injEq] at h
        obtain ⟨h1, h2⟩ := h
        subst h1; subst h2
        simpa using ih hfd
      · simp at h

/-- Split a character list at every `'\n'` (each newline terminates a
segment; a trailing newline yields a trailing empty segment). Helper for
`rustLines`. -/
def splitOnNewline : List Char → List (List Char)
  | [] => [[]]
  | c :: rest =>
    if c = '\n' then
      [] :: splitOnNewline rest
    else
      match splitOnNewline rest with
      | [] => [[c]]
      | l :: ls => (c :: l) :: ls

/-- Rust `str::lines` strips one trailing carriage return from each
line. -/
def stripCR (l : List Char) : List Char :=
  if l.getLast? = some '\r' then l.dropLast else l

/-- Rust `str::lines` (used on the frame at src/gemini/base.rs, line
176): split on `'\n'`, drop the final empty segment produced by a
trailing newline (or by an empty input), strip one trailing `'\r'` per
line. -/
def rustLines (s : List Char) : List (List Char) :=
  (if (splitOnNewline s).getLast? = some [] then (splitOnNewline s).dropLast
   else splitOnNewline s).map stripCR

/-- Rust `line.strip_prefix("data: ")` with the literal SSE data marker
(src/gemini/base.rs, line 177). -/
def stripDataMarker : List Char → Option (List Char)
  | 'd' :: 'a' :: 't' :: 'a' :: ':' :: ' ' :: rest => some rest
  | _ => none

/-- Rust payload extraction for one frame (src/gemini/base.rs, lines
175-179): keep the `"data: "` lines, strip the marker, concatenate the
remainders with no separator. -/
def payloadOf (frame : List Char) : List Char :=
  ((rustLines frame).filterMap stripDataMarker).flatten

/-- Rust per-frame event derivation (src/gemini/base.rs, lines 188-217):
on a successfully parsed frame, push a `Delta` for a present non-empty
text, then a `FunctionCall` if present, then a `Usage` when all three
counts are present. -/
def frameEvents (r : GeminiResponse) : List StreamEvent :=
  (match r.get_text with
   | some text => if text ≠ "" then [StreamEvent.delta text] else []
   | none => []) ++
  (match r.get_function with
   | some gf => [StreamEvent.functionCall { name := gf.name, args := gf.args }]
   | none => []) ++
  (match r.usage_metadata with
   | some usage =>
     match usage.prompt_token_count, usage.candidates_token_count,
           usage.total_token_count with
     | some pt, some ct, some tt => [StreamEvent.usage pt ct tt]
     | _, _, _ => []
   | none => [])

/-- Decode of a single complete frame payload: the events the loop emits
for it (an `Error` event when the payload does not parse). -/
def decodeFrame (parse : List Char → Except String GeminiResponse)
    (payload : List Char) : List StreamEvent :=
  match parse payload with
  | Except.ok r => frameEvents r
  | Except.error e => [StreamEvent.error e]

/-- The events one extracted frame contributes to the flattened output of
the loop at src/gemini/base.rs, lines 174-234: an empty payload is
silently skipped (line 181), otherwise the payload is parsed and handled
by `decodeFrame`. In the source the `continue` branches (empty payload,
successful parse that derives no events) emit nothing before looping: in
the flattened event sequence that is the same as contributing `[]`. -/
def frameOutput (parse : List Char → Except String GeminiResponse)
    (frame : List Char) : List StreamEvent :=
  if payloadOf frame = [] then [] else decodeFrame parse (payloadOf frame)

/-- The buffer-draining part of the `stream::unfold` loop
(src/gemini/base.rs, lines 166-235): while a complete frame (terminated
by the double-newline delimiter) is buffered, split it off and emit its
events; stop at the first buffer state holding no complete frame.
Returns the flattened events of all complete frames together with the
retained buffer remainder. -/
def drainFrames (parse : List Char → Except String GeminiResponse)
    (buffer : List Char) : List StreamEvent × List Char :=
  match hfd : findDelim buffer with
  | some (frame, remaining) =>
    (frameOutput parse frame ++ (drainFrames parse remaining).1,
     (drainFrames parse remaining).2)
  | none => ([], buffer)
termination_by buffer.length
decreasing_by
  all_goals exact findDelim_length hfd

/-- Rust `stream::unfold` loop of `stream_generate_content`
(src/gemini/base.rs, lines 163-259), flattened (`flat_map`) into the full
list of emitted events. The transport byte source is the `chunks` list;
the loop alternates between draining every complete frame from the
buffer (`drainFrames`, lines 166-235) and awaiting the next transport
arrival (lines 237-255): end of input ends the sequence, discarding any
undelimited remainder (lines 243-246); a transport error emits an
`Error` event and the loop continues with the retained state (lines
247-254); a chunk is appended to the buffer (lines 240-242). -/
def streamLoop (parse : List Char → Except String GeminiResponse) :
    List (Except String (List Char)) → List Char → List StreamEvent
  | [], buffer => (drainFrames parse buffer).1
  | Except.error e :: restChunks, buffer =>
    (drainFrames parse buffer).1 ++
      StreamEvent.error e :: streamLoop parse restChunks (drainFrames parse buffer).2
  | Except.ok chunk :: restChunks, buffer =>
    (drainFrames parse buffer).1 ++
      streamLoop parse restChunks ((drainFrames parse buffer).2 ++ chunk)

/-! One-step unfolding lemmas for `drainFrames` and `streamLoop`. -/

/-- Unfolding `drainFrames` when a complete frame is buffered. -/
lemma drainFrames_some (parse : List Char → Except String GeminiResponse)
    {buffer frame remaining : List Char}
    (hfd : findDelim buffer = some (frame, remaining)) :
    drainFrames parse buffer =
      (frameOutput parse frame ++ (drainFrames parse remaining).1,
       (drainFrames parse remaining).2) := by
  rw [drainFrames.eq_def, hfd]

/-- Unfolding `drainFrames` when no complete frame is buffered. -/
lemma drainFrames_none (parse : List Char → Except String GeminiResponse)
    {buffer : List Char} (hfd : findDelim buffer = none) :
    drainFrames parse buffer = ([], buffer) := by
  rw [drainFrames.eq_def, hfd]

/-- Splitting one buffered frame off commutes with the whole loop: the
frame's events are emitted first and processing continues on the
retained remainder, whatever the chunk list holds. -/
lemma streamLoop_frame (parse : List Char → Except String GeminiResponse)
    (chunks : List (Except String (List Char))) {buffer frame remaining : List Char}
    (hfd : findDelim buffer = some (frame, remaining)) :
    streamLoop parse chunks buffer =
      frameOutput parse frame ++ streamLoop parse chunks remaining := by
  cases chunks with
  | nil => simp [streamLoop, drainFrames_some parse hfd]
  | cons c restChunks =>
    cases c with
    | error e => simp [streamLoop, drainFrames_some parse hfd]
    | ok chunk => simp [streamLoop, drainFrames_some parse hfd]

/-- With no complete frame buffered, end of input produces nothing
further (the undelimited remainder is discarded). -/
lemma streamLoop_input_end (parse : List Char → Except String GeminiResponse)
    {buffer : List Char} (hfd : findDelim buffer = none) :
    streamLoop parse [] buffer = [] := by
  simp [streamLoop, drainFrames_none parse hfd]

/-- With no complete frame buffered, a transport error emits one `Error`
event and the loop continues with the retained state. -/
lemma streamLoop_transport_err (parse : List Char → Except String GeminiResponse)
    {buffer : List Char} (e : String) (restChunks : List (Except String (List Char)))
    (hfd : findDelim buffer = none) :
    streamLoop parse (Except.error e :: restChunks) buffer =
      StreamEvent.error e :: streamLoop parse restChunks buffer := by
  simp [streamLoop, drainFrames_none parse hfd]

/-- With no complete frame buffered, the next chunk is appended to the
buffer. -/
lemma streamLoop_chunk (parse : List Char → Except String GeminiResponse)
    {buffer : List Char} (chunk : List Char)
    (restChunks : List (Except String (List Char)))
    (hfd : findDelim buffer = none) :
    streamLoop parse (Except.ok chunk :: restChunks) buffer =
      streamLoop parse restChunks (buffer ++ chunk) := by
  simp [streamLoop, drainFrames_none parse hfd]


/-! Frame-shape lemmas used to reason about SSE data lines. -/

/-- The literal characters of the SSE marker `"data: "`. -/
def dataMarker : List Char := ['d', 'a', 't', 'a', ':', ' ']

/-- A buffer containing no newline holds no frame delimiter. -/
lemma findDelim_no_newline : ∀ {l : List Char}, '\n' ∉ l → findDelim l = none := by
  intro l
  induction l with
  | nil => intro _; rfl
  | cons c t ih =>
    intro h
    have hc : c ≠ '\n' := fun hc => h (hc ▸ List.mem_cons_self c t)
    have ht : '\n' ∉ t := fun hm => h (List.mem_cons_of_mem c hm)
    rw [findDelim, if_neg (fun hand => hc hand.1), ih ht]

/-- A buffer that is newline-free except for a single trailing newline
holds no frame delimiter. -/
lemma findDelim_single_newline_end :
    ∀ {l : List Char}, '\n' ∉ l → findDelim (l ++ ['\n']) = none := by
  intro l
  induction l with
  | nil => intro _; rfl
  | cons c t ih =>
    intro h
    have hc : c ≠ '\n' := fun hc => h (hc ▸ List.mem_cons_self c t)
    have ht : '\n' ∉ t := fun hm => h (List.mem_cons_of_mem c hm)
    rw [List.cons_append, findDelim, if_neg (fun hand => hc hand.1), ih ht]

/-- Appending the frame delimiter after a newline-free buffer splits off
exactly that buffer as the frame. -/
lemma findDelim_delim_end :
    ∀ {l : List Char} (rest : List Char), '\n' ∉ l →
      findDelim (l ++ '\n' :: '\n' :: rest) = some (l, rest) := by
  intro l
  induction l with
  | nil =>
    intro rest _
    rw [List.nil_append, findDelim, if_pos (by simp)]
    simp
  | cons c t ih =>
    intro rest h
    have hc : c ≠ '\n' := fun hc => h (hc ▸ List.mem_cons_self c t)
    have ht : '\n' ∉ t := fun hm => h (List.mem_cons_of_mem c hm)
    rw [List.cons_append, findDelim, if_neg (fun hand => hc hand.1), ih rest ht]

/-- Splitting a newline-free list yields that single segment. -/
lemma splitOnNewline_no_newline :
    ∀ {l : List Char}, '\n' ∉ l → splitOnNewline l = [l] := by
  intro l
  induction l with
  | nil => intro _; rfl
  | cons c t ih =>
    intro h
    have hc : c ≠ '\n' := fun hc => h (hc ▸ List.mem_cons_self c t)
    have ht : '\n' ∉ t := fun hm => h (List.mem_cons_of_mem c hm)
    rw [splitOnNewline, if_neg hc, ih ht]

/-- `rustLines` of a single newline-free, nonempty line not ending in a
carriage return is that line. -/
lemma rustLines_single_line {l : List Char} (h : '\n' ∉ l) (hne : l ≠ [])
    (hcr : l.getLast? ≠ some '\r') : rustLines l = [l] := by
  unfold rustLines
  rw [splitOnNewline_no_newline h]
  have : ([l] : List (List Char)).getLast? = some l := rfl
  rw [this]
  simp only [Option.some.injEq]
  rw [if_neg hne]
  simp [stripCR, hcr]

/-- Payload extraction of a frame consisting of one `"data: "` line. -/
lemma payloadOf_dataLine {payload : List Char} (h : '\n' ∉ payload)
    (hne : payload ≠ []) (hcr : payload.getLast? ≠ some '\r') :
    payloadOf (dataMarker ++ payload) = payload := by
  unfold payloadOf
  have hnl : '\n' ∉ dataMarker ++ payload := by
    intro hm
    rcases List.mem_append.mp hm with hm | hm
    · simp [dataMarker] at hm
    · exact h hm
  have hne2 : dataMarker ++ payload ≠ [] := by simp [dataMarker]
  have hcr2 : (dataMarker ++ payload).getLast? ≠ some '\r' := by
    rw [List.getLast?_append_of_ne_nil _ hne]
    exact hcr
  rw [rustLines_single_line hnl hne2 hcr2]
  have hstrip : stripDataMarker (dataMarker ++ payload) = some payload := rfl
  simp [hstrip]

/-! Concrete fixtures used by closed scenarios and witnesses. -/

/-- A tool declaration with no parameters. -/
def toolA : Tool :=
  { name := "tool_a", description := "first tool", parameters := none }

/-- A second tool declaration with no parameters. -/
def toolB : Tool :=
  { name := "tool_b", description := "second tool", parameters := none }

/-- A builder whose tool list is already populated with `toolA`. -/
def builderWithToolA : ModelRequestBuilder :=
  { system := none, messages := none, settings := none, tools := some [toolA] }

/-- A concrete parameter schema (as derived for an argument type). -/
def paramsA : ToolParameters :=
  { param_type := "object", properties := [], required := [] }

/-- A second, different concrete parameter schema. -/
def paramsB : ToolParameters :=
  { param_type := "object", properties := [], required := ["city"] }

/-- A tool declaration that already has parameters set. -/
def toolWithParams : Tool :=
  { name := "get_weather", description := "Get the weather", parameters := some paramsA }

/-- A response part holding the text "hi" and no function call. -/
def partHi : ResponsePart := { text := "hi", function_call := none }

/-- A candidate whose single part holds the text "hi". -/
def candidateHi : Candidate :=
  { content := { parts := [partHi], role := none }, finish_reason := none, index := none }

/-- A response with text but with the prompt-token count absent from the
usage block. -/
def respNoPrompt : GeminiResponse :=
  { candidates := [candidateHi],
    usage_metadata := some
      { prompt_token_count := none, candidates_token_count := some 2,
        total_token_count := some 3 } }

/-- A response with an empty candidate list (and a complete usage
block, to show the failure is decided by the candidates alone). -/
def respEmptyCandidates : GeminiResponse :=
  { candidates := [],
    usage_metadata := some
      { prompt_token_count := some 1, candidates_token_count := some 2,
        total_token_count := some 3 } }

/-- A candidate with no parts at all. -/
def candidateEmptyParts : Candidate :=
  { content := { parts := [], role := none }, finish_reason := none, index := none }

/-- A response whose single candidate has no parts. -/
def respEmptyParts : GeminiResponse :=
  { candidates := [candidateEmptyParts], usage_metadata := none }

/-! Claim theorems. -/

/-- C2: the claim states that for a builder whose tool list is already
populated, `with_tool` appends the new tool and `with_tools` appends
every given tool. Evaluating the code on a builder already holding
`toolA`: both calls return the builder unchanged and the new tool is
lost, because the source pushes into a clone of the list and discards
the clone (src/client/mod.rs, lines 239 and 249). This contradicts the
append behaviour the spec states (and the in-place behaviour
`with_message`/`with_messages` implement), so it is a code bug, not
intended behaviour. -/
theorem with_tool_drops_tool_when_list_populated :
    builderWithToolA.with_tool toolB = builderWithToolA ∧
    builderWithToolA.with_tools [toolB] = builderWithToolA ∧
    (builderWithToolA.with_tool toolB).tools = some [toolA] :=
  ⟨rfl, rfl, rfl⟩

/-- C3: the compiled wire request carries a thinking-configuration field
if and only if the model identifier contains neither the substring
"1.5" nor the substring "2.0" (src/gemini/base.rs, lines 17-27); in
particular a compiled request never carries a populated thinking budget
together with a model version containing "1.5" or "2.0". -/
theorem thinking_config_version_predicate (model : String) (request : ModelRequest) :
    ((create_request_body model request).generation_config.thinking_config).isSome =
      (!(strContains model "1.5") && !(strContains model "2.0")) := by
  unfold create_request_body
  by_cases h15 : strContains model "1.5" <;> by_cases h20 : strContains model "2.0" <;>
    simp [h15, h20]

/-- C6: with the completion text present, each of the three token counts
is independently required: whichever of prompt/completion/total is
missing first produces its own named decode error (src/gemini/base.rs,
lines 104-119), and a successful decode implies all three were
present. -/
theorem token_counts_independently_required (r : GeminiResponse) (t : String)
    (htext : r.get_text = some t) :
    (r.get_prompt_tokens = none →
      decodeCompletion r = Except.error "Missing prompt tokens from response") ∧
    (∀ pt, r.get_prompt_tokens = some pt → r.get_completion_tokens = none →
      decodeCompletion r = Except.error "Missing completion tokens from response") ∧
    (∀ pt ct, r.get_prompt_tokens = some pt → r.get_completion_tokens = some ct →
      r.get_total_tokens = none →
      decodeCompletion r = Except.error "Missing total tokens from response") ∧
    (∀ c, decodeCompletion r = Except.ok c →
      r.get_prompt_tokens.isSome ∧ r.get_completion_tokens.isSome ∧
        r.get_total_tokens.isSome) := by
  refine ⟨?_, ?_, ?_, ?_⟩
  · intro hp
    simp [decodeCompletion, htext, hp]
  · intro pt hp hc
    simp [decodeCompletion, htext, hp, hc]
  · intro pt ct hp hc htot
    simp [decodeCompletion, htext, hp, hc, htot]
  · intro c hok
    cases hp : r.get_prompt_tokens with
    | none => simp [decodeCompletion, htext, hp] at hok
    | some pt =>
      cases hc : r.get_completion_tokens with
      | none => simp [decodeCompletion, htext, hp, hc] at hok
      | some ct =>
        cases htot : r.get_total_tokens with
        | none => simp [decodeCompletion, htext, hp, hc, htot] at hok
        | some tt => simp [hp, hc, htot]

/-- C6 witness: the concrete response with a usage block missing only
the prompt-token count decodes to the named prompt-tokens error. -/
theorem token_counts_independently_required_witness :
    decodeCompletion respNoPrompt = Except.error "Missing prompt tokens from response" :=
  (token_counts_independently_required respNoPrompt "hi" rfl).1 rfl

/-- C7: decoding a response whose candidate list is empty always fails
with the missing-completion error (src/gemini/types.rs, lines 131-144
and src/gemini/base.rs, lines 97-102); the decode is a total function
(no panic) and never returns a defaulted `Completion`. -/
theorem empty_candidates_decode_fails (r : GeminiResponse)
    (h : r.candidates = []) :
    decodeCompletion r = Except.error "Missing completion from response" ∧
    ∀ c : Completion, decodeCompletion r ≠ Except.ok c := by
  have htext : r.get_text = none := by
    simp [GeminiResponse.get_text, h]
  constructor
  · simp [decodeCompletion, htext]
  · intro c
    simp [decodeCompletion, htext]

/-- C7 witness: the concrete empty-candidates response (with a complete
usage block) decodes to the missing-completion error. -/
theorem empty_candidates_decode_fails_witness :
    decodeCompletion respEmptyCandidates = Except.error "Missing completion from response" :=
  (empty_candidates_decode_fails respEmptyCandidates rfl).1

/-- C8: message accumulation is associative — for any builder state,
adding `[a, m]` at once and then `c` gives the same builder as adding
`a`, `m`, `c` one at a time; from a fresh builder the final list is
`[a, m, c]`. -/
theorem message_accumulation_associative (b : ModelRequestBuilder) (a m c : Message) :
    (b.with_messages [a, m]).with_message c =
      ((b.with_message a).with_message m).with_message c ∧
    ((ModelRequestBuilder.new.with_messages [a, m]).with_message c).messages =
      some [a, m, c] := by
  constructor
  · cases hm : b.messages <;>
      simp [ModelRequestBuilder.with_messages, ModelRequestBuilder.with_message, hm]
  · simp [ModelRequestBuilder.new, ModelRequestBuilder.with_messages,
      ModelRequestBuilder.with_message]

/-- C9: `Tool::with_parameter` is first-write-wins (src/client/mod.rs,
lines 164-176): when the declaration already has parameters the call
returns the tool unchanged; when it has none, the successfully derived
schema is installed. -/
theorem with_parameter_first_write_wins (t : Tool) (p : ToolParameters) :
    (∀ q, t.parameters = some q → t.with_parameter (Except.ok p) = Except.ok t) ∧
    (t.parameters = none →
      t.with_parameter (Except.ok p) =
        Except.ok { name := t.name, description := t.description,
                    parameters := some p }) := by
  constructor
  · intro q hq
    simp [Tool.with_parameter, hq]
  · intro hq
    simp [Tool.with_parameter, hq]

/-- C9 witness: at concrete tools, a second `with_parameter` on
`toolWithParams` is a no-op and a first `with_parameter` on `toolA`
installs the derived schema. -/
theorem with_parameter_first_write_wins_witness :
    toolWithParams.with_parameter (Except.ok paramsB) = Except.ok toolWithParams ∧
    toolA.with_parameter (Except.ok paramsA) =
      Except.ok { name := toolA.name, description := toolA.description,
                  parameters := some paramsA } :=
  ⟨(with_parameter_first_write_wins toolWithParams paramsB).1 paramsA rfl,
   (with_parameter_first_write_wins toolA paramsA).2 rfl⟩

/-- C10: for a response with a non-empty candidate list the
missing-completion failure can never fire: `get_text` returns the
in-order concatenation of the first candidate's part texts, which for a
candidate with no parts is the empty string (not an error). -/
theorem nonempty_candidates_text_present (r : GeminiResponse) (c : Candidate)
    (cs : List Candidate) (h : r.candidates = c :: cs) :
    r.get_text = some (c.content.parts.foldl (fun acc p => acc ++ p.text) "") ∧
    (c.content.parts = [] → r.get_text = some "") ∧
    decodeCompletion r ≠ Except.error "Missing completion from response" := by
  have htext : r.get_text =
      some (c.content.parts.foldl (fun acc p => acc ++ p.text) "") := by
    simp [GeminiResponse.get_text, h]
  refine ⟨htext, ?_, ?_⟩
  · intro hparts
    rw [htext, hparts]
    rfl
  · cases hp : r.get_prompt_tokens with
    | none => simp [decodeCompletion, htext, hp]
    | some pt =>
      cases hc : r.get_completion_tokens with
      | none => simp [decodeCompletion, htext, hp, hc]
      | some ct =>
        cases htot : r.get_total_tokens with
        | none => simp [decodeCompletion, htext, hp, hc, htot]
        | some tt => simp [decodeCompletion, htext, hp, hc, htot]

/-- C10 witness: the concrete one-candidate response with no parts
decodes its text to the empty string and does not hit the
missing-completion failure. -/
theorem nonempty_candidates_text_present_witness :
    respEmptyParts.get_text = some "" ∧
    decodeCompletion respEmptyParts ≠ Except.error "Missing completion from response" :=
  ⟨(nonempty_candidates_text_present respEmptyParts candidateEmptyParts [] rfl).2.1 rfl,
   (nonempty_candidates_text_present respEmptyParts candidateEmptyParts [] rfl).2.2⟩

/-! Streaming fixtures. -/

/-- A concrete valid wire payload: one candidate, one text part "hi". -/
def goodPayload : String :=
  "\x7b\"candidates\":[\x7b\"content\":\x7b\"parts\":[\x7b\"text\":\"hi\"\x7d]\x7d\x7d]\x7d"

/-- The parsed form of `goodPayload`. -/
def goodResponse : GeminiResponse :=
  { candidates :=
      [{ content := { parts := [{ text := "hi", function_call := none }], role := none },
         finish_reason := none, index := none }],
    usage_metadata := none }

/-- Concrete stand-in for `serde_json::from_str::<GeminiResponse>` in the
closed streaming scenarios: it accepts exactly the one valid payload
those scenarios use (`goodPayload`, which parses to `goodResponse`) and
rejects everything else (the scenarios only ever feed it the non-JSON
payload "bad" besides). -/
def parseStub (data : List Char) : Except String GeminiResponse :=
  if data = goodPayload.data then Except.ok goodResponse
  else Except.error "invalid JSON"

/-- The SSE frame whose payload is the malformed "bad". -/
def badFrame : List Char := dataMarker ++ "bad".data

/-- The SSE frame whose payload is `goodPayload`. -/
def goodFrame : List Char := dataMarker ++ goodPayload.data

/-- One transport chunk holding two complete frames: first the malformed
one, then the valid one. -/
def c1Bytes : List Char :=
  badFrame ++ '\n' :: '\n' :: (goodFrame ++ '\n' :: '\n' :: [])

/-- A single `"data: ..."` line terminated by one newline: the first
arrival of the spec's two-arrival scenario (the second arrival `"\n"`
completes the frame delimiter). -/
def dataLine (payload : List Char) : List Char :=
  (dataMarker ++ payload) ++ ['\n']

/-- The kind tag of a stream event. -/
inductive EventKind where
  | delta
  | functionCall
  | usage
  | error
deriving DecidableEq, Repr

/-- The kind of one stream event. -/
def eventKind : StreamEvent → EventKind
  | StreamEvent.delta _ => EventKind.delta
  | StreamEvent.usage _ _ _ => EventKind.usage
  | StreamEvent.functionCall _ => EventKind.functionCall
  | StreamEvent.error _ => EventKind.error

/-! Streaming claim theorems. -/

/-- C1 counterexample: an `Error` event is not terminal. A single chunk
carrying a malformed frame followed by a complete valid frame yields an
`Error` event and then a further `Delta` event — the claim states no
event of any kind may follow the `Error`. -/
theorem error_event_followed_by_delta :
    streamLoop parseStub [Except.ok c1Bytes] [] =
      [StreamEvent.error "invalid JSON", StreamEvent.delta "hi"] := by
  have hpb : payloadOf badFrame = "bad".data :=
    payloadOf_dataLine (by decide) (by decide) (by decide)
  have hpg : payloadOf goodFrame = goodPayload.data :=
    payloadOf_dataLine (by decide) (by decide) (by decide)
  have hbad : parseStub ("bad".data) = Except.error "invalid JSON" := rfl
  have hgood : parseStub goodPayload.data = Except.ok goodResponse := rfl
  rw [streamLoop_chunk parseStub c1Bytes []
      (show findDelim ([] : List Char) = none from rfl), List.nil_append]
  rw [show c1Bytes = badFrame ++ '\n' :: '\n' :: (goodFrame ++ '\n' :: '\n' :: []) from rfl]
  rw [streamLoop_frame parseStub [] (findDelim_delim_end _ (by decide))]
  rw [streamLoop_frame parseStub [] (findDelim_delim_end _ (by decide))]
  rw [streamLoop_input_end parseStub (show findDelim ([] : List Char) = none from rfl)]
  simp [frameOutput, hpb, hpg, decodeFrame, hbad, hgood]
  rfl

/-- C1 (amended): an `Error` event — whether from a payload parse
failure or from a transport error — is emitted in place but is not
terminal: the loop retains its state, so frames still buffered (or
appended later) continue to be processed and can produce further
events. -/
theorem error_event_not_terminal :
    (∀ (parse : List Char → Except String GeminiResponse) chunks
       (buffer frame remaining : List Char) (e : String),
       findDelim buffer = some (frame, remaining) →
       payloadOf frame ≠ [] →
       parse (payloadOf frame) = Except.error e →
       streamLoop parse chunks buffer =
         StreamEvent.error e :: streamLoop parse chunks remaining) ∧
    (∀ (parse : List Char → Except String GeminiResponse) chunks
       (buffer : List Char) (e : String),
       findDelim buffer = none →
       streamLoop parse (Except.error e :: chunks) buffer =
         StreamEvent.error e :: streamLoop parse chunks buffer) := by
  constructor
  · intro parse chunks buffer frame remaining e hfd hne hp
    rw [streamLoop_frame parse chunks hfd]
    simp [frameOutput, hne, decodeFrame, hp]
  · intro parse chunks buffer e hfd
    exact streamLoop_transport_err parse e chunks hfd

/-- C1 witness: both amended branches applied at concrete inputs — the
parse-failure `Error` is followed by continued processing of the
remaining buffered frame, and a transport `Error` is followed by
continued processing of the remaining arrivals. -/
theorem error_event_not_terminal_witness :
    streamLoop parseStub [] c1Bytes =
      StreamEvent.error "invalid JSON" ::
        streamLoop parseStub [] (goodFrame ++ '\n' :: '\n' :: []) ∧
    streamLoop parseStub [Except.error "connection reset"] [] =
      StreamEvent.error "connection reset" :: streamLoop parseStub [] [] :=
  ⟨error_event_not_terminal.1 parseStub [] c1Bytes badFrame
      (goodFrame ++ '\n' :: '\n' :: []) "invalid JSON" (by decide) (by decide) rfl,
   error_event_not_terminal.2 parseStub [] [] "connection reset" rfl⟩

/-- C4: a data line without the double-newline delimiter produces no
event on its own arrival; once the second arrival completes the
delimiter, exactly that one frame is reassembled and decoded. -/
theorem two_arrival_single_frame (parse : List Char → Except String GeminiResponse)
    (payload : List Char) (hnl : '\n' ∉ payload) (hne : payload ≠ [])
    (hcr : payload.getLast? ≠ some '\r') :
    streamLoop parse [Except.ok (dataLine payload)] [] = [] ∧
    streamLoop parse [Except.ok (dataLine payload), Except.ok ['\n']] [] =
      decodeFrame parse payload := by
  have hmem : '\n' ∉ dataMarker ++ payload := by
    intro hm
    rcases List.mem_append.mp hm with hm | hm
    · simp [dataMarker] at hm
    · exact hnl hm
  have hnone : findDelim (dataLine payload) = none :=
    findDelim_single_newline_end hmem
  have hp : payloadOf (dataMarker ++ payload) = payload :=
    payloadOf_dataLine hnl hne hcr
  constructor
  · rw [streamLoop_chunk parse _ _ (show findDelim ([] : List Char) = none from rfl),
      List.nil_append, streamLoop_input_end parse hnone]
  · rw [streamLoop_chunk parse _ _ (show findDelim ([] : List Char) = none from rfl),
      List.nil_append, streamLoop_chunk parse _ _ hnone]
    rw [show dataLine payload ++ ['\n'] =
        (dataMarker ++ payload) ++ '\n' :: '\n' :: [] by simp [dataLine]]
    rw [streamLoop_frame parse [] (findDelim_delim_end [] hmem),
      streamLoop_input_end parse (show findDelim ([] : List Char) = none from rfl)]
    simp [frameOutput, hp, hne]

/-- C4 witness: the two-arrival scenario at the concrete valid payload,
no event after the first arrival, one decoded frame after the second. -/
theorem two_arrival_single_frame_witness :
    streamLoop parseStub [Except.ok (dataLine goodPayload.data)] [] = [] ∧
    streamLoop parseStub
        [Except.ok (dataLine goodPayload.data), Except.ok ['\n']] [] =
      decodeFrame parseStub goodPayload.data :=
  two_arrival_single_frame parseStub goodPayload.data (by decide) (by decide) (by decide)

/-- C5: per frame, events come in the fixed order `Delta`, then
`FunctionCall`, then `Usage`, at most one of each kind (the event kinds
form a sublist of that fixed order); and a parsed frame carrying a
non-empty text, no function call and a fully populated usage block
emits exactly the two events `Delta` then `Usage`. -/
theorem frame_event_order (r : GeminiResponse) :
    List.Sublist ((frameEvents r).map eventKind)
      [EventKind.delta, EventKind.functionCall, EventKind.usage] ∧
    (∀ (t : String) (u : UsageMetadata) (pt ct tt : Int),
      r.get_text = some t → t ≠ "" → r.get_function = none →
      r.usage_metadata = some u → u.prompt_token_count = some pt →
      u.candidates_token_count = some ct → u.total_token_count = some tt →
      frameEvents r = [StreamEvent.delta t, StreamEvent.usage pt ct tt]) := by
  constructor
  · unfold frameEvents
    repeat' split
    all_goals simp [eventKind]
  · intro t u pt ct tt hgt ht hgf hu hpt hct htt
    simp [frameEvents, hgt, ht, hgf, hu, hpt, hct, htt]

/-- C5 witness: the concrete response carrying the text "hi", no
function call and a complete usage block emits exactly `Delta "hi"` then
`Usage 1 2 3`, and its event kinds, like every frame's, follow the
fixed order. -/
theorem frame_event_order_witness :
    frameEvents
        { candidates := [candidateHi],
          usage_metadata := some
            { prompt_token_count := some 1, candidates_token_count := some 2,
              total_token_count := some 3 } } =
      [StreamEvent.delta "hi", StreamEvent.usage 1 2 3] :=
  (frame_event_order _).2 "hi"
    { prompt_token_count := some 1, candidates_token_count := some 2,
      total_token_count := some 3 }
    1 2 3 rfl (by decide) rfl rfl rfl rfl rfl

end Langrust
